import Mathlib

/-!
Verification development for the ElBota futures trading bot.

The definitions below are a shallow embedding of the decision logic of
`src/CoinbaseMain.py` (the live trading script) together with the level
validator of `src/main.py` (the paper-trading variant, which differs only in
its distance bounds).  Prices and P/L values are modelled as rationals;
broker interactions are modelled by a deterministic oracle (`Broker`,
`BrokerPos`) supplying the responses the Python code reads, and the orders
the code submits or cancels are recorded in an explicit `Effect` list.
Python truthiness tests on nullable values (`if stop_loss:`,
`if stop_order_id:`) are modelled by `truthyQ` / `truthyS`; `is None`
tests are modelled by comparison with `Option.none`.
-/

namespace ElBota

/-- Python truthiness of a nullable number: `None` and `0.0` are falsy. -/
def truthyQ : Option ℚ → Bool
  | none => false
  | some v => v != 0

/-- Python truthiness of a nullable string: `None` and `""` are falsy. -/
def truthyS : Option String → Bool
  | none => false
  | some s => s != ""

/-- One OHLCV candle as parsed from the fetched CSV data (`timestamp` is the
first column, `high` the third, `low` the fourth, `close` the fifth, `volume`
the sixth; `openPrice` is the second column, unused by the embedded logic). -/
structure Candle where
  timestamp : Int
  openPrice : ℚ
  high : ℚ
  low : ℚ
  close : ℚ
  volume : ℚ
deriving Repr, DecidableEq

/-- The `current_position` record of `positions.json` (CoinbaseMain variant). -/
structure Position where
  status : String
  entry_price : Option ℚ
  entry_time : Option Int
  stop_loss : Option ℚ
  take_profit : Option ℚ
  trade_id : Option String
  action : Option String
  entry_order_id : Option String
  stop_loss_order_id : Option String
  take_profit_order_id : Option String
  unrealized_pnl : Option ℚ
deriving Repr, DecidableEq

/-- One entry of `trade_history` (the `type` key is called `ttype` here). -/
structure TradeRecord where
  ttype : String
  entry_price : ℚ
  exit_price : ℚ
  profit_loss : ℚ
  entry_time : Option Int
  exit_time : Int
  note : Option String
deriving Repr, DecidableEq

/-- The persisted store `positions.json`. -/
structure PositionsData where
  current_position : Position
  last_signal : String
  trade_history : List TradeRecord
  total_trades : Nat
  winning_trades : Nat
  losing_trades : Nat
deriving Repr, DecidableEq

/-- The LLM trade proposal (`trade_data` dict); a run where the response was
unparseable passes `None`, modelled as `Option.none` at use sites. -/
structure TradeData where
  action : String
  stop_loss : Option ℚ
  take_profit : Option ℚ
  confidence : ℚ
deriving Repr, DecidableEq

/-- Expression `trade_data.get("action", "hold") if trade_data else "hold"`. -/
def signalOf : Option TradeData → String
  | none => "hold"
  | some t => t.action

/-- Default position written by `load_positions` on first run. -/
def default_position : Position :=
  { status := "none", entry_price := none, entry_time := none, stop_loss := none,
    take_profit := none, trade_id := none, action := none, entry_order_id := none,
    stop_loss_order_id := none, take_profit_order_id := none, unrealized_pnl := none }

/-- Default store written by `load_positions` on first run. -/
def default_state : PositionsData :=
  { current_position := default_position, last_signal := "hold", trade_history := [],
    total_trades := 0, winning_trades := 0, losing_trades := 0 }

/-- Configuration constant `CONTRACTS_PER_TRADE = 1`. -/
def CONTRACTS_PER_TRADE : ℚ := 1

/-- Configuration constant `CONTRACT_MULTIPLIER = 0.1`. -/
def CONTRACT_MULTIPLIER : ℚ := 1 / 10

/-- Configuration constant `MIN_DISTANCE_PERCENT = 0.40` (CoinbaseMain). -/
def MIN_DISTANCE_PERCENT : ℚ := 40 / 100

/-- Configuration constant `MAX_DISTANCE_PERCENT = 2.90` (CoinbaseMain). -/
def MAX_DISTANCE_PERCENT : ℚ := 290 / 100

/-- Return value of `check_stop_target` (CoinbaseMain version, a 4-tuple). -/
structure ScanResult where
  should_close : Bool
  reason : Option String
  exit_price : Option ℚ
  orders_to_cancel : List String
deriving Repr, DecidableEq

/-- The per-candle loop of `check_stop_target` for a long position: the
take-profit test (`candle["high"] >= take_profit`) runs before the stop-loss
test (`candle["low"] <= stop_loss`) within each candle. -/
def walkLong (tp sl : Option ℚ) (sid tid : Option String) : List Candle → ScanResult
  | [] => ⟨false, none, none, []⟩
  | c :: rest =>
    if truthyQ tp ∧ tp.getD 0 ≤ c.high then
      ⟨true, some "target_hit", tp, if truthyS sid then [sid.getD ""] else []⟩
    else if truthyQ sl ∧ c.low ≤ sl.getD 0 then
      ⟨true, some "stop_hit", sl, if truthyS tid then [tid.getD ""] else []⟩
    else walkLong tp sl sid tid rest

/-- The per-candle loop of `check_stop_target` for a short position:
take-profit uses the candle low, stop-loss the candle high. -/
def walkShort (tp sl : Option ℚ) (sid tid : Option String) : List Candle → ScanResult
  | [] => ⟨false, none, none, []⟩
  | c :: rest =>
    if truthyQ tp ∧ c.low ≤ tp.getD 0 then
      ⟨true, some "target_hit", tp, if truthyS sid then [sid.getD ""] else []⟩
    else if truthyQ sl ∧ sl.getD 0 ≤ c.high then
      ⟨true, some "stop_hit", sl, if truthyS tid then [tid.getD ""] else []⟩
    else walkShort tp sl sid tid rest

/-- Candles with `timestamp >= entry_timestamp`, in their original order. -/
def relevantCandles (entry_ts : Int) (candles : List Candle) : List Candle :=
  candles.filter (fun c => entry_ts ≤ c.timestamp)

/-- Embedding of `check_stop_target` (CoinbaseMain.py:84-144).  The stored ISO
`entry_time` string, which the Python parses back to a unix timestamp, is
modelled directly as that timestamp; a position whose `entry_time` is null
would make the Python parser raise, modelled here as timestamp `0`. -/
def check_stop_target (pd : PositionsData) (candles : List Candle) : ScanResult :=
  let pos := pd.current_position
  if pos.status = "none" then ⟨false, none, none, []⟩
  else
    let entry_ts := pos.entry_time.getD 0
    let relevant := relevantCandles entry_ts candles
    if pos.status = "long" then
      walkLong pos.take_profit pos.stop_loss pos.stop_loss_order_id
        pos.take_profit_order_id relevant
    else if pos.status = "short" then
      walkShort pos.take_profit pos.stop_loss pos.stop_loss_order_id
        pos.take_profit_order_id relevant
    else ⟨false, none, none, []⟩

/-- Diagnostic outcomes of `validate_trade_levels`, one per distinct error
message the Python function can return. -/
inductive VError
  | missingLevels
  | stopTooTight
  | stopTooWide
  | targetTooClose
  | targetTooFar
  | rrTooLow
  | rrTooHigh
  | longStopNotBelow
  | longTargetNotAbove
  | shortTargetNotBelow
  | shortStopNotAbove
deriving Repr, DecidableEq

/-- Body shared by the two revisions of `validate_trade_levels`, which differ
only in the configured distance window (`minPct`/`maxPct`, in percent). -/
def validate_levels_core (minPct maxPct : ℚ) (td : Option TradeData)
    (current_price : ℚ) : Bool × Option VError :=
  match td with
  | none => (true, none)
  | some t =>
    if t.action = "hold" then (true, none)
    else
      match t.stop_loss, t.take_profit with
      | some stop, some target =>
        let entry := current_price
        let stop_distance := |entry - stop|
        let target_distance := |entry - target|
        let stop_percentage := stop_distance / entry * 100
        let target_percentage := target_distance / entry * 100
        if stop_percentage < minPct then (false, some .stopTooTight)
        else if maxPct < stop_percentage then (false, some .stopTooWide)
        else if target_percentage < minPct then (false, some .targetTooClose)
        else if maxPct < target_percentage then (false, some .targetTooFar)
        else
          let rr := if 0 < stop_distance then target_distance / stop_distance else 0
          if rr < 1 / 2 then (false, some .rrTooLow)
          else if 3 < rr then (false, some .rrTooHigh)
          else if t.action = "buy" then
            if entry ≤ stop then (false, some .longStopNotBelow)
            else if target ≤ entry then (false, some .longTargetNotAbove)
            else (true, none)
          else if t.action = "sell" then
            if entry ≤ target then (false, some .shortTargetNotBelow)
            else if stop ≤ entry then (false, some .shortStopNotAbove)
            else (true, none)
          else (true, none)
      | _, _ => (false, some .missingLevels)

/-- Embedding of `validate_trade_levels` (CoinbaseMain.py:1493-1574), using
the module constants `MIN_DISTANCE_PERCENT = 0.40`, `MAX_DISTANCE_PERCENT = 2.90`. -/
def validate_trade_levels (td : Option TradeData) (current_price : ℚ) :
    Bool × Option VError :=
  validate_levels_core MIN_DISTANCE_PERCENT MAX_DISTANCE_PERCENT td current_price

/-- Embedding of `validate_trade_levels` (main.py:711-768), whose distance
window is hard-coded to 0.10 to 0.50 percent. -/
def validate_trade_levels_main (td : Option TradeData) (current_price : ℚ) :
    Bool × Option VError :=
  validate_levels_core (10 / 100) (50 / 100) td current_price

/-- Embedding of `check_volume_conditions` (CoinbaseMain.py:1577-1621): over
the last 10 candles (or all of them when fewer), the average volume must
exceed 100 and at least 7 candles must have volume above 20. -/
def check_volume_conditions (candles : List Candle) : Bool × Option String :=
  let last10 := if 10 ≤ candles.length then candles.drop (candles.length - 10) else candles
  let volumes := last10.map (·.volume)
  let avg_volume : ℚ := if volumes = [] then 0 else volumes.sum / volumes.length
  let avg_check := 100 < avg_volume
  let high_volume_count := (volumes.filter (fun v => 20 < v)).length
  let count_check := 7 ≤ high_volume_count
  if avg_check ∧ count_check then (true, none)
  else
    let failures :=
      (if avg_check then [] else ["avg volume <= 100"]) ++
      (if count_check then [] else ["too few candles > 20 volume"])
    (false, some (String.intercalate " AND " failures))

/-- Status and average fill price of an order, as read back from
`client.get_order` (the `order` dict inside the response). -/
structure OrderInfo where
  status : String
  average_filled_price : Option ℚ
deriving Repr, DecidableEq

/-- Deterministic oracle for the broker responses the embedded code reads.
`execRaw a` is the order id of a successful entry/exit order submitted by
`execute_real_futures_trade` for action `a` (`none` models a rejected order or
an exception); `stopRaw`/`tpRaw` give the `success_response.order_id` of
`place_stop_loss_order` / `place_take_profit_order` for a position type and a
price (`none` models failure or exception; `some ""` a success response with a
falsy id); `getOrder i` is the looked-up status of order `i` (`none` models an
exception during the lookup). -/
structure Broker where
  execRaw : String → Option String
  stopRaw : String → ℚ → Option String
  tpRaw : String → ℚ → Option String
  getOrder : String → Option OrderInfo

/-- Result dict of `execute_real_futures_trade`, restricted to the keys the
callers read (`success`, `order_id`). -/
structure ExecResult where
  success : Bool
  order_id : Option String
deriving Repr, DecidableEq

/-- Result dict of `place_stop_loss_order` / `place_take_profit_order`,
restricted to the keys the callers read (`success`, `order_id`). -/
structure ProtResult where
  success : Bool
  order_id : Option String
deriving Repr, DecidableEq

/-- Broker-side action performed during a run: an entry/exit order submission,
a protective order placement, or an order cancellation. -/
inductive Effect
  | execOrder (action : String) (limit_price : ℚ)
  | placeStopLoss (position_type : String) (stop_price : ℚ)
  | placeTakeProfit (position_type : String) (target_price : ℚ)
  | cancelOrders (ids : List String)
  | cancelAllOpen
deriving Repr, DecidableEq

/-- Embedding of `execute_real_futures_trade` (CoinbaseMain.py:147-253): an
unknown action returns a failure without submitting anything; otherwise an
order is submitted and, on broker failure, the result carries
`order_id = "failed"` with `success = False`. -/
def execute_real_futures_trade (action : String) (limit_price : ℚ) (b : Broker) :
    ExecResult × List Effect :=
  if action = "open_long" ∨ action = "close_short" ∨
      action = "open_short" ∨ action = "close_long" then
    match b.execRaw action with
    | some oid => (⟨true, some oid⟩, [.execOrder action limit_price])
    | none => (⟨false, some "failed"⟩, [.execOrder action limit_price])
  else (⟨false, none⟩, [])

/-- Embedding of `place_stop_loss_order` (CoinbaseMain.py:256-348): the result
is successful only when the broker response carries a truthy order id. -/
def place_stop_loss_order (b : Broker) (position_type : String) (stop_price : ℚ) :
    ProtResult × List Effect :=
  match b.stopRaw position_type stop_price with
  | none => (⟨false, none⟩, [.placeStopLoss position_type stop_price])
  | some oid =>
    if oid = "" then (⟨false, none⟩, [.placeStopLoss position_type stop_price])
    else (⟨true, some oid⟩, [.placeStopLoss position_type stop_price])

/-- Embedding of `place_take_profit_order` (CoinbaseMain.py:351-431). -/
def place_take_profit_order (b : Broker) (position_type : String) (target_price : ℚ) :
    ProtResult × List Effect :=
  match b.tpRaw position_type target_price with
  | none => (⟨false, none⟩, [.placeTakeProfit position_type target_price])
  | some oid =>
    if oid = "" then (⟨false, none⟩, [.placeTakeProfit position_type target_price])
    else (⟨true, some oid⟩, [.placeTakeProfit position_type target_price])

/-- The cleared `current_position` dict written when a position closes
(CoinbaseMain.py:676-688). -/
def cleared_position : Position := default_position

/-- Result dict of `execute_trade`, restricted to the keys the callers and the
claims read. -/
structure ExecOutcome where
  success : Bool
  order_id : Option String
  profit_loss : ℚ
deriving Repr, DecidableEq

/-- Embedding of `execute_trade` (CoinbaseMain.py:551-692).  `now` is the
timestamp `datetime.now()` recorded as `entry_time` / `exit_time`.  On a
successful open it stores the entry order id, places the protective legs
(each stored only when its placement succeeds), and fills in the entry
fields; on a successful close it cancels the recorded order ids, records the
trade (only when the stored entry price is truthy) and clears the position;
on failure it returns without touching the store. -/
def execute_trade (action : String) (price : ℚ) (pd : PositionsData)
    (stop_loss take_profit : Option ℚ) (b : Broker) (now : Int) :
    PositionsData × ExecOutcome × List Effect :=
  let resE := execute_real_futures_trade action price b
  let res := resE.1
  let effs0 := resE.2
  if res.success ∧ (action = "open_long" ∨ action = "open_short") then
    let position_type := if action = "open_long" then "long" else "short"
    let cp0 := { pd.current_position with entry_order_id := res.order_id }
    let stepStop : Position × List Effect :=
      if truthyQ stop_loss then
        let srE := place_stop_loss_order b position_type (stop_loss.getD 0)
        (if srE.1.success then
            { cp0 with stop_loss := stop_loss, stop_loss_order_id := srE.1.order_id }
          else cp0, srE.2)
      else (cp0, [])
    let cp1 := stepStop.1
    let stepTp : Position × List Effect :=
      if truthyQ take_profit then
        let trE := place_take_profit_order b position_type (take_profit.getD 0)
        (if trE.1.success then
            { cp1 with take_profit := take_profit, take_profit_order_id := trE.1.order_id }
          else cp1, trE.2)
      else (cp1, [])
    let cp2 := stepTp.1
    let cp3 := { cp2 with
      status := position_type, entry_price := some price,
      entry_time := some now, unrealized_pnl := some 0 }
    ({ pd with current_position := cp3 }, ⟨true, res.order_id, 0⟩,
      effs0 ++ stepStop.2 ++ stepTp.2)
  else if res.success ∧ (action = "close_long" ∨ action = "close_short") then
    let cp := pd.current_position
    let ids := ([cp.entry_order_id, cp.stop_loss_order_id,
                 cp.take_profit_order_id].filterMap id).filter (fun s => s ≠ "")
    let cancelEffs : List Effect := if ids = [] then [] else [.cancelOrders ids]
    let closed : PositionsData × ℚ :=
      if truthyQ cp.entry_price then
        let e := cp.entry_price.getD 0
        let m := CONTRACTS_PER_TRADE * CONTRACT_MULTIPLIER
        let pl := if action = "close_long" then (price - e) * m else (e - price) * m
        ({ pd with
            total_trades := pd.total_trades + 1,
            winning_trades := if 0 < pl then pd.winning_trades + 1 else pd.winning_trades,
            losing_trades := if 0 < pl then pd.losing_trades else pd.losing_trades + 1,
            trade_history := pd.trade_history ++
              [{ ttype := if action = "close_long" then "long" else "short",
                 entry_price := e, exit_price := price, profit_loss := pl,
                 entry_time := cp.entry_time, exit_time := now, note := none }] }, pl)
      else (pd, 0)
    ({ closed.1 with current_position := cleared_position },
      ⟨true, res.order_id, closed.2⟩, effs0 ++ cancelEffs)
  else (pd, ⟨res.success, res.order_id, 0⟩, effs0)

/-- One user-visible result message appended to `results` / `trade_results`
during a run, abstracted from its formatted string. -/
inductive RunMsg
  | trade (r : ExecOutcome)
  | invalidLevels (e : Option VError)
  | volumeTooLow (side : String) (msg : String)
  | holdFlat
  | holding (side : String) (pl : ℚ)
  | apiError (e : String)
  | desyncClosed (reason : String) (exit_price pl : ℚ)
  | desyncNoFill
deriving Repr, DecidableEq

/-- First phase of `manage_positions` (CoinbaseMain.py:701-726): the
scanner-triggered close.  Returns the updated store, messages, effects and
the working status (`current_status`), forced to `"none"` after a close. -/
def scanCloseStep (pd : PositionsData) (candles : List Candle) (b : Broker)
    (now : Int) : PositionsData × List RunMsg × List Effect × String :=
  let status0 := pd.current_position.status
  let scan := check_stop_target pd candles
  if scan.should_close then
      let cEffs : List Effect :=
        if scan.orders_to_cancel = [] then [] else [.cancelOrders scan.orders_to_cancel]
      if status0 = "long" then
        let o := execute_trade "close_long" (scan.exit_price.getD 0) pd none none b now
        (o.1, [.trade o.2.1], cEffs ++ o.2.2, "none")
      else if status0 = "short" then
        let o := execute_trade "close_short" (scan.exit_price.getD 0) pd none none b now
        (o.1, [.trade o.2.1], cEffs ++ o.2.2, "none")
      else (pd, [], cEffs, status0)
  else (pd, [], [], status0)

/-- Signal-driven transition out of a flat working status
(CoinbaseMain.py:729-799): validated buy/sell signals open a position after
the volume gate; hold cancels stray resting orders. -/
def signalStepNone (pd1 : PositionsData) (td : Option TradeData)
    (current_price : ℚ) (candles : List Candle) (b : Broker) (now : Int) :
    PositionsData × List RunMsg × List Effect :=
  let new_signal := signalOf td
  (
      if new_signal = "buy" then
        let v := validate_trade_levels td current_price
        if v.1 = false then (pd1, [.invalidLevels v.2], [])
        else
          let vol := check_volume_conditions candles
          if vol.1 = false then (pd1, [.volumeTooLow "LONG" (vol.2.getD "")], [])
          else
            let o := execute_trade "open_long" current_price pd1
              (td.bind (·.stop_loss)) (td.bind (·.take_profit)) b now
            (o.1, [.trade o.2.1], .cancelAllOpen :: o.2.2)
      else if new_signal = "sell" then
        let v := validate_trade_levels td current_price
        if v.1 = false then (pd1, [.invalidLevels v.2], [])
        else
          let vol := check_volume_conditions candles
          if vol.1 = false then (pd1, [.volumeTooLow "SHORT" (vol.2.getD "")], [])
          else
            let o := execute_trade "open_short" current_price pd1
              (td.bind (·.stop_loss)) (td.bind (·.take_profit)) b now
            (o.1, [.trade o.2.1], .cancelAllOpen :: o.2.2)
      else if new_signal = "hold" then
        (pd1, [.holdFlat], [.cancelAllOpen])
      else (pd1, [], []))

/-- Signal-driven transition out of a long working status
(CoinbaseMain.py:801-891): buy holds (refreshing P/L and repairing missing
protective orders), sell closes and possibly flips, hold closes. -/
def signalStepLong (pd1 : PositionsData) (td : Option TradeData)
    (current_price : ℚ) (candles : List Candle) (b : Broker) (now : Int) :
    PositionsData × List RunMsg × List Effect :=
  let new_signal := signalOf td
  (if new_signal = "buy" then
        let cp := pd1.current_position
        let m := CONTRACTS_PER_TRADE * CONTRACT_MULTIPLIER
        let pl := if truthyQ cp.entry_price then
            (current_price - cp.entry_price.getD 0) * m else 0
        let cpA := { cp with unrealized_pnl := some pl }
        let stepStop : Position × List Effect :=
          if cpA.stop_loss_order_id = none ∧ truthyQ (td.bind (·.stop_loss)) then
            let sl := (td.bind (·.stop_loss)).getD 0
            let srE := place_stop_loss_order b "long" sl
            (if srE.1.success then
                { cpA with stop_loss := some sl, stop_loss_order_id := srE.1.order_id }
              else cpA, srE.2)
          else (cpA, [])
        let cpB := stepStop.1
        let stepTp : Position × List Effect :=
          if cpB.take_profit_order_id = none ∧ truthyQ (td.bind (·.take_profit)) then
            let tp := (td.bind (·.take_profit)).getD 0
            let trE := place_take_profit_order b "long" tp
            (if trE.1.success then
                { cpB with take_profit := some tp, take_profit_order_id := trE.1.order_id }
              else cpB, trE.2)
          else (cpB, [])
        ({ pd1 with current_position := stepTp.1 }, [.holding "long" pl],
          stepStop.2 ++ stepTp.2)
      else if new_signal = "sell" then
        let oC := execute_trade "close_long" current_price pd1 none none b now
        let v := validate_trade_levels td current_price
        if v.1 = false then (oC.1, [.trade oC.2.1, .invalidLevels v.2], oC.2.2)
        else
          let vol := check_volume_conditions candles
          if vol.1 = false then
            (oC.1, [.trade oC.2.1, .volumeTooLow "SHORT" (vol.2.getD "")], oC.2.2)
          else
            let oO := execute_trade "open_short" current_price oC.1
              (td.bind (·.stop_loss)) (td.bind (·.take_profit)) b now
            (oO.1, [.trade oC.2.1, .trade oO.2.1], oC.2.2 ++ .cancelAllOpen :: oO.2.2)
      else if new_signal = "hold" then
        let oC := execute_trade "close_long" current_price pd1 none none b now
        (oC.1, [.trade oC.2.1], oC.2.2)
      else (pd1, [], []))

/-- Signal-driven transition out of a short working status
(CoinbaseMain.py:893-983), the mirror of the long case. -/
def signalStepShort (pd1 : PositionsData) (td : Option TradeData)
    (current_price : ℚ) (candles : List Candle) (b : Broker) (now : Int) :
    PositionsData × List RunMsg × List Effect :=
  let new_signal := signalOf td
  (if new_signal = "sell" then
        let cp := pd1.current_position
        let m := CONTRACTS_PER_TRADE * CONTRACT_MULTIPLIER
        let pl := if truthyQ cp.entry_price then
            (cp.entry_price.getD 0 - current_price) * m else 0
        let cpA := { cp with unrealized_pnl := some pl }
        let stepStop : Position × List Effect :=
          if cpA.stop_loss_order_id = none ∧ truthyQ (td.bind (·.stop_loss)) then
            let sl := (td.bind (·.stop_loss)).getD 0
            let srE := place_stop_loss_order b "short" sl
            (if srE.1.success then
                { cpA with stop_loss := some sl, stop_loss_order_id := srE.1.order_id }
              else cpA, srE.2)
          else (cpA, [])
        let cpB := stepStop.1
        let stepTp : Position × List Effect :=
          if cpB.take_profit_order_id = none ∧ truthyQ (td.bind (·.take_profit)) then
            let tp := (td.bind (·.take_profit)).getD 0
            let trE := place_take_profit_order b "short" tp
            (if trE.1.success then
                { cpB with take_profit := some tp, take_profit_order_id := trE.1.order_id }
              else cpB, trE.2)
          else (cpB, [])
        ({ pd1 with current_position := stepTp.1 }, [.holding "short" pl],
          stepStop.2 ++ stepTp.2)
      else if new_signal = "buy" then
        let oC := execute_trade "close_short" current_price pd1 none none b now
        let v := validate_trade_levels td current_price
        if v.1 = false then (oC.1, [.trade oC.2.1, .invalidLevels v.2], oC.2.2)
        else
          let vol := check_volume_conditions candles
          if vol.1 = false then
            (oC.1, [.trade oC.2.1, .volumeTooLow "LONG" (vol.2.getD "")], oC.2.2)
          else
            let oO := execute_trade "open_long" current_price oC.1
              (td.bind (·.stop_loss)) (td.bind (·.take_profit)) b now
            (oO.1, [.trade oC.2.1, .trade oO.2.1], oC.2.2 ++ .cancelAllOpen :: oO.2.2)
      else if new_signal = "hold" then
        let oC := execute_trade "close_short" current_price pd1 none none b now
        (oC.1, [.trade oC.2.1], oC.2.2)
      else (pd1, [], []))

/-- Second phase of `manage_positions` (CoinbaseMain.py:728-984): the
signal-driven transition, dispatching on the working status left by the
scanner phase. -/
def signalStep (pd1 : PositionsData) (current_status : String)
    (td : Option TradeData) (current_price : ℚ) (candles : List Candle)
    (b : Broker) (now : Int) : PositionsData × List RunMsg × List Effect :=
  if current_status = "none" then signalStepNone pd1 td current_price candles b now
  else if current_status = "long" then signalStepLong pd1 td current_price candles b now
  else if current_status = "short" then signalStepShort pd1 td current_price candles b now
  else (pd1, [], [])

/-- Embedding of `manage_positions` (CoinbaseMain.py:695-988): the
scanner-triggered close runs first (forcing the working status to `"none"`
for the rest of the run), then the signal-driven transition; finally the
`last_signal` field is updated. -/
def manage_positions (pd : PositionsData) (td : Option TradeData)
    (current_price : ℚ) (candles : List Candle) (b : Broker) (now : Int) :
    PositionsData × List RunMsg × List Effect :=
  let afterScan := scanCloseStep pd candles b now
  let stepOut := signalStep afterScan.1 afterScan.2.2.2 td current_price candles b now
  ({ stepOut.1 with last_signal := signalOf td },
    afterScan.2.1 ++ stepOut.2.1, afterScan.2.2.1 ++ stepOut.2.2)

/-- Side of a live broker position as read by
`get_current_futures_position`; the exchange reports `LONG` or `SHORT`, and
the code defaults a missing attribute to `UNKNOWN`. -/
inductive Side
  | LONG
  | SHORT
  | UNKNOWN
deriving Repr, DecidableEq

/-- Lower-cased side string, as stored by `real_position["side"].lower()`. -/
def Side.toStatus : Side → String
  | .LONG => "long"
  | .SHORT => "short"
  | .UNKNOWN => "unknown"

/-- Outcome of `get_current_futures_position` (CoinbaseMain.py:499-548): an
API exception yields `{"exists": None, "error": ...}`, a missing position
`{"exists": False}`, and a live position its side, size, `entry_vwap` (zero
when the API omits it) and unrealized P/L. -/
inductive BrokerPos
  | apiError (msg : String)
  | noPosition
  | livePos (side : Side) (size entry_vwap pnl : ℚ)
deriving Repr, DecidableEq

/-- Embedding of the position reconciliation block of `__main__`
(CoinbaseMain.py:1866-2045), run once per cycle before signal evaluation.
On an API error the local store is left untouched; on a live broker position
the local status, entry price (kept when the API reports a zero entry and the
local value is truthy) and unrealized P/L are overwritten; when the broker
shows no position but the local store does, the filled protective order is
looked up for the exit price, lingering orders are cancelled, a desync trade
record is appended only when the entry order actually filled, and the
position fields are cleared. -/
def reconcile (pd : PositionsData) (bp : BrokerPos) (b : Broker)
    (current_price : ℚ) (now : Int) :
    PositionsData × List RunMsg × List Effect :=
  match bp with
  | .apiError e => (pd, [.apiError e], [])
  | .livePos side _size entry_vwap pnl =>
    let cp := pd.current_position
    let newEntry :=
      if entry_vwap = 0 ∧ truthyQ cp.entry_price then cp.entry_price
      else some entry_vwap
    ({ pd with current_position := { cp with
        status := side.toStatus, entry_price := newEntry,
        unrealized_pnl := some pnl } }, [], [])
  | .noPosition =>
    let cp := pd.current_position
    let afterDesync : PositionsData × List RunMsg × List Effect :=
      if cp.status ≠ "none" then
        let sid := cp.stop_loss_order_id
        let tid := cp.take_profit_order_id
        let stopFill : Option ℚ :=
          if truthyS sid then
            match b.getOrder (sid.getD "") with
            | some info =>
              if info.status = "FILLED" then
                some (info.average_filled_price.getD current_price)
              else none
            | none => none
          else none
        let hit : ℚ × String × Bool :=
          match stopFill with
          | some p => (p, "stop_hit", true)
          | none =>
            let tpFill : Option ℚ :=
              if truthyS tid then
                match b.getOrder (tid.getD "") with
                | some info =>
                  if info.status = "FILLED" then
                    some (info.average_filled_price.getD current_price)
                  else none
                | none => none
              else none
            match tpFill with
            | some p => (p, "target_hit", true)
            | none => (current_price, "externally", false)
        let exit_price := hit.1
        let reason := hit.2.1
        let eid := cp.entry_order_id
        let ids := ([eid, sid, tid].filterMap id).filter (fun s => s ≠ "")
        let cancelEffs : List Effect := if ids = [] then [] else [.cancelOrders ids]
        let entry_was_filled : Bool :=
          if truthyS eid then
            match b.getOrder (eid.getD "") with
            | some info =>
              ¬ (info.status = "OPEN" ∨ info.status = "PENDING" ∨ info.status = "QUEUED")
            | none => true
          else true
        match cp.entry_price with
        | some e =>
          if entry_was_filled then
            let m := CONTRACTS_PER_TRADE * CONTRACT_MULTIPLIER
            let pl := if cp.status = "long" then (exit_price - e) * m
              else (e - exit_price) * m
            let ttype := if cp.status = "long" then "long" else "short"
            ({ pd with
                trade_history := pd.trade_history ++
                  [{ ttype := ttype, entry_price := e, exit_price := exit_price,
                     profit_loss := pl, entry_time := cp.entry_time, exit_time := now,
                     note := some ("Closed " ++ reason ++ " (desync detected)") }],
                total_trades := pd.total_trades + 1,
                winning_trades := if 0 < pl then pd.winning_trades + 1
                  else pd.winning_trades,
                losing_trades := if 0 < pl then pd.losing_trades
                  else pd.losing_trades + 1 },
              [.desyncClosed reason exit_price pl], cancelEffs)
          else (pd, [.desyncNoFill], cancelEffs)
        | none => (pd, [], cancelEffs)
      else (pd, [], [])
    let pd1 := afterDesync.1
    let cpC := pd1.current_position
    let cleared := { cpC with
      status := "none", entry_price := none, entry_time := none,
      stop_loss := none, take_profit := none, entry_order_id := none,
      stop_loss_order_id := none, take_profit_order_id := none,
      unrealized_pnl := none }
    ({ pd1 with current_position := cleared }, afterDesync.2.1, afterDesync.2.2)

/-- One full cycle of the `__main__` script: reconciliation against the
broker, then signal-driven position management over the same candle data. -/
def runCycle (pd : PositionsData) (bp : BrokerPos) (td : Option TradeData)
    (current_price : ℚ) (candles : List Candle) (b : Broker) (now : Int) :
    PositionsData × List RunMsg × List Effect :=
  let r := reconcile pd bp b current_price now
  let m := manage_positions r.1 td current_price candles b now
  (m.1, r.2.1 ++ m.2.1, r.2.2 ++ m.2.2)

/-- Stores reachable by the bot: the first-run default, and everything
produced from a reachable store by one full cycle against arbitrary broker
data, signals and candles. -/
inductive Reachable : PositionsData → Prop
  | init : Reachable default_state
  | step (pd : PositionsData) (bp : BrokerPos) (td : Option TradeData)
      (current_price : ℚ) (candles : List Candle) (b : Broker) (now : Int) :
      Reachable pd → Reachable (runCycle pd bp td current_price candles b now).1

/-! Concrete fixtures used by witnesses and counterexamples. -/

/-- A broker oracle on which every call fails or raises. -/
def brkNone : Broker :=
  { execRaw := fun _ => none, stopRaw := fun _ _ => none,
    tpRaw := fun _ _ => none, getOrder := fun _ => none }

/-- A stored long position: entry 4300 at t=100, stop 4285, target 4320,
with entry/stop/target order ids recorded. -/
def pdLong : PositionsData :=
  { default_state with current_position := { default_position with
      status := "long", entry_price := some 4300, entry_time := some 100,
      stop_loss := some 4285, take_profit := some 4320,
      entry_order_id := some "E1", stop_loss_order_id := some "S1",
      take_profit_order_id := some "T1" } }

/-- The Scenario C candle: t=150, high 4325, low 4280. -/
def candleC : Candle := ⟨150, 4300, 4325, 4280, 4310, 200⟩

/-- C6: if the broker position query fails (`exists = None` with an error
string), reconciliation returns the store byte-for-byte unchanged — no field
of the persisted position is mutated, no desync handling or clearing runs,
and no broker-side effect is issued; the run proceeds on last-known state. -/
theorem c6_api_error_keeps_local_state (pd : PositionsData) (msg : String)
    (b : Broker) (current_price : ℚ) (now : Int) :
    reconcile pd (BrokerPos.apiError msg) b current_price now =
      (pd, [RunMsg.apiError msg], []) := rfl

/-- C7 counterexample: the live validator of CoinbaseMain.py, applied to
price 4300, action buy, stop 4285 and target 4320, does NOT return valid —
the stop distance 0.349 percent is below the configured minimum
`MIN_DISTANCE_PERCENT = 0.40`, so the claim fails as stated on that code. -/
theorem c7_counterexample :
    validate_trade_levels (some ⟨"buy", some 4285, some 4320, 80⟩) 4300 =
      (false, some VError.stopTooTight) := by
  norm_num [validate_trade_levels, validate_levels_core, MIN_DISTANCE_PERCENT,
    MAX_DISTANCE_PERCENT] <;> decide

/-- C7 amended: the same input is valid for the validator of main.py, whose
configured window is 0.10 to 0.50 percent: both distances (0.349 and
0.465 percent) lie inside that window, the reward-risk 20/15 = 4/3 lies
within [0.5, 3.0], and stop < price < target holds; the CoinbaseMain
validator (window 0.40 to 2.90 percent) instead rejects the stop as too
tight. -/
theorem c7_amended_validator :
    validate_trade_levels_main (some ⟨"buy", some 4285, some 4320, 80⟩) 4300 =
      (true, none) ∧
    validate_trade_levels (some ⟨"buy", some 4285, some 4320, 80⟩) 4300 =
      (false, some VError.stopTooTight) := by
  constructor <;>
    norm_num [validate_trade_levels, validate_trade_levels_main,
      validate_levels_core, MIN_DISTANCE_PERCENT, MAX_DISTANCE_PERCENT] <;> decide

/-- C8 counterexample: when the broker reports a live long position with a
zero (placeholder) entry price and unrealized P/L 5 while the local store has
no entry price, the reconciler stores entry price 0 — it does not
back-calculate an entry price from the unrealized P/L and position size. -/
theorem c8_counterexample :
    ((reconcile default_state (BrokerPos.livePos .LONG 1 0 5) brkNone 4300 210).1.current_position.entry_price = some 0) ∧
    ((reconcile default_state (BrokerPos.livePos .LONG 1 0 5) brkNone 4300 210).1.current_position.status = "long") := by
  decide

/-- C8 amended: on a live broker position with a zero reported entry price,
no back-calculation is performed: the local entry price is kept when it is
truthy (non-null and non-zero), and otherwise the stored entry price becomes
the broker's zero placeholder; the unrealized P/L is always overwritten. -/
theorem c8_amended_zero_entry_sync (pd : PositionsData) (side : Side)
    (size pnl current_price : ℚ) (b : Broker) (now : Int) :
    ((reconcile pd (BrokerPos.livePos side size 0 pnl) b current_price now).1.current_position.entry_price =
      if truthyQ pd.current_position.entry_price then pd.current_position.entry_price
        else some 0) ∧
    ((reconcile pd (BrokerPos.livePos side size 0 pnl) b current_price now).1.current_position.unrealized_pnl = some pnl) := by
  by_cases h : truthyQ pd.current_position.entry_price = true <;>
    simp [reconcile, h]

/-- C9: for an `open_long`/`open_short` action whose entry order placement
fails, `execute_trade` submits no stop-loss and no take-profit order and
leaves the stored position (and the whole store) unchanged. -/
theorem c9_failed_entry_no_side_effects (action : String) (price : ℚ)
    (pd : PositionsData) (stop_loss take_profit : Option ℚ) (b : Broker)
    (now : Int) (ha : action = "open_long" ∨ action = "open_short")
    (hf : b.execRaw action = none) :
    execute_trade action price pd stop_loss take_profit b now =
      (pd, ⟨false, some "failed", 0⟩, [Effect.execOrder action price]) := by
  rcases ha with h | h <;> subst h <;>
    simp [execute_trade, execute_real_futures_trade, hf]

/-- C9 witness: concrete failing open against `brkNone`. -/
theorem c9_witness :
    ("open_long" = "open_long" ∨ "open_long" = "open_short") ∧
    brkNone.execRaw "open_long" = none ∧
    execute_trade "open_long" 4300 pdLong (some 4270) (some 4330) brkNone 210 =
      (pdLong, ⟨false, some "failed", 0⟩, [Effect.execOrder "open_long" 4300]) :=
  ⟨Or.inl rfl, rfl,
    c9_failed_entry_no_side_effects "open_long" 4300 pdLong (some 4270)
      (some 4330) brkNone 210 (Or.inl rfl) rfl⟩

/-- Filtering to relevant candles is idempotent. -/
lemma relevantCandles_idem (t : Int) (cs : List Candle) :
    relevantCandles t (relevantCandles t cs) = relevantCandles t cs := by
  simp [relevantCandles, List.filter_filter]

/-- The long walk skips every candle that touches neither level. -/
lemma walkLong_append_no_touch (tp sl : ℚ) (sid tid : Option String)
    (pre rest : List Candle) (hpre : ∀ c ∈ pre, c.high < tp ∧ sl < c.low) :
    walkLong (some tp) (some sl) sid tid (pre ++ rest) =
      walkLong (some tp) (some sl) sid tid rest := by
  induction pre with
  | nil => rfl
  | cons a l ih =>
    obtain ⟨h1, h2⟩ := hpre a (List.mem_cons_self a l)
    have hA : ¬ (truthyQ (some tp) ∧ (some tp : Option ℚ).getD 0 ≤ a.high) := by
      rintro ⟨-, hle⟩
      simp only [Option.getD_some] at hle
      exact absurd hle (not_le.mpr h1)
    have hB : ¬ (truthyQ (some sl) ∧ a.low ≤ (some sl : Option ℚ).getD 0) := by
      rintro ⟨-, hle⟩
      simp only [Option.getD_some] at hle
      exact absurd hle (not_le.mpr h2)
    rw [List.cons_append]
    show (if truthyQ (some tp) ∧ (some tp : Option ℚ).getD 0 ≤ a.high then _
      else if truthyQ (some sl) ∧ a.low ≤ (some sl : Option ℚ).getD 0 then _
      else walkLong (some tp) (some sl) sid tid (l ++ rest)) = _
    rw [if_neg hA, if_neg hB]
    exact ih (fun c hc => hpre c (List.mem_cons_of_mem a hc))

/-- The short walk skips every candle that touches neither level. -/
lemma walkShort_append_no_touch (tp sl : ℚ) (sid tid : Option String)
    (pre rest : List Candle) (hpre : ∀ c ∈ pre, tp < c.low ∧ c.high < sl) :
    walkShort (some tp) (some sl) sid tid (pre ++ rest) =
      walkShort (some tp) (some sl) sid tid rest := by
  induction pre with
  | nil => rfl
  | cons a l ih =>
    obtain ⟨h1, h2⟩ := hpre a (List.mem_cons_self a l)
    have hA : ¬ (truthyQ (some tp) ∧ a.low ≤ (some tp : Option ℚ).getD 0) := by
      rintro ⟨-, hle⟩
      simp only [Option.getD_some] at hle
      exact absurd hle (not_le.mpr h1)
    have hB : ¬ (truthyQ (some sl) ∧ (some sl : Option ℚ).getD 0 ≤ a.high) := by
      rintro ⟨-, hle⟩
      simp only [Option.getD_some] at hle
      exact absurd hle (not_le.mpr h2)
    rw [List.cons_append]
    show (if truthyQ (some tp) ∧ a.low ≤ (some tp : Option ℚ).getD 0 then _
      else if truthyQ (some sl) ∧ (some sl : Option ℚ).getD 0 ≤ a.high then _
      else walkShort (some tp) (some sl) sid tid (l ++ rest)) = _
    rw [if_neg hA, if_neg hB]
    exact ih (fun c hc => hpre c (List.mem_cons_of_mem a hc))

/-- On a candle whose high reaches the target, the long walk reports
`target_hit` at the take-profit level (before looking at the stop level)
and queues the stop order id. -/
lemma walkLong_target_hit (tp sl : ℚ) (sid : String) (tid : Option String)
    (c : Candle) (rest : List Candle) (htp : tp ≠ 0) (hsid : sid ≠ "")
    (hhit : tp ≤ c.high) :
    walkLong (some tp) (some sl) (some sid) tid (c :: rest) =
      ⟨true, some "target_hit", some tp, [sid]⟩ := by
  have hA : truthyQ (some tp) ∧ (some tp : Option ℚ).getD 0 ≤ c.high := by
    simp [truthyQ, htp, hhit]
  show (if truthyQ (some tp) ∧ (some tp : Option ℚ).getD 0 ≤ c.high then
      ScanResult.mk true (some "target_hit") (some tp)
        (if truthyS (some sid) then [(some sid : Option String).getD ""] else [])
    else _) = _
  rw [if_pos hA]
  simp [truthyS, hsid]

/-- On a candle whose low reaches the target, the short walk reports
`target_hit` at the take-profit level (before looking at the stop level)
and queues the stop order id. -/
lemma walkShort_target_hit (tp sl : ℚ) (sid : String) (tid : Option String)
    (c : Candle) (rest : List Candle) (htp : tp ≠ 0) (hsid : sid ≠ "")
    (hhit : c.low ≤ tp) :
    walkShort (some tp) (some sl) (some sid) tid (c :: rest) =
      ⟨true, some "target_hit", some tp, [sid]⟩ := by
  have hA : truthyQ (some tp) ∧ c.low ≤ (some tp : Option ℚ).getD 0 := by
    simp [truthyQ, htp, hhit]
  show (if truthyQ (some tp) ∧ c.low ≤ (some tp : Option ℚ).getD 0 then
      ScanResult.mk true (some "target_hit") (some tp)
        (if truthyS (some sid) then [(some sid : Option String).getD ""] else [])
    else _) = _
  rw [if_pos hA]
  simp [truthyS, hsid]

/-- C1: the stop/target scanner considers only candles with timestamp at or
after the entry time (part 1: its result is unchanged by pre-filtering),
walks them oldest first and checks take-profit before stop-loss within each
candle, using high for a long target, low for a long stop, low for a short
target and high for a short stop (parts 2 and 3: on the first relevant
candle reaching the target — even one that also reaches the stop — it
returns `target_hit` at the take-profit level and queues the stop order id
for cancellation); part 4 is Scenario C: long with stop 4285 / target 4320
and a relevant candle with high 4325 and low 4280 yields `target_hit`,
exit price 4320, cancelling the stop order id. -/
theorem c1_scanner_tp_before_sl :
    (∀ pd candles,
      check_stop_target pd candles =
        check_stop_target pd
          (relevantCandles (pd.current_position.entry_time.getD 0) candles)) ∧
    (∀ pd candles pre c rest (et : Int) (tp sl : ℚ) (sid : String)
        (tid : Option String),
      pd.current_position.status = "long" →
      pd.current_position.entry_time = some et →
      pd.current_position.take_profit = some tp → tp ≠ 0 →
      pd.current_position.stop_loss = some sl → sl ≠ 0 →
      pd.current_position.stop_loss_order_id = some sid → sid ≠ "" →
      pd.current_position.take_profit_order_id = tid →
      candles = pre ++ c :: rest →
      (∀ c' ∈ pre, c'.timestamp < et ∨ (c'.high < tp ∧ sl < c'.low)) →
      et ≤ c.timestamp → tp ≤ c.high →
      check_stop_target pd candles = ⟨true, some "target_hit", some tp, [sid]⟩) ∧
    (∀ pd candles pre c rest (et : Int) (tp sl : ℚ) (sid : String)
        (tid : Option String),
      pd.current_position.status = "short" →
      pd.current_position.entry_time = some et →
      pd.current_position.take_profit = some tp → tp ≠ 0 →
      pd.current_position.stop_loss = some sl → sl ≠ 0 →
      pd.current_position.stop_loss_order_id = some sid → sid ≠ "" →
      pd.current_position.take_profit_order_id = tid →
      candles = pre ++ c :: rest →
      (∀ c' ∈ pre, c'.timestamp < et ∨ (tp < c'.low ∧ c'.high < sl)) →
      et ≤ c.timestamp → c.low ≤ tp →
      check_stop_target pd candles = ⟨true, some "target_hit", some tp, [sid]⟩) ∧
    check_stop_target pdLong [candleC] =
      ⟨true, some "target_hit", some 4320, ["S1"]⟩ := by
  refine ⟨?_, ?_, ?_, by decide⟩
  · intro pd candles
    by_cases h0 : pd.current_position.status = "none"
    · simp [check_stop_target, h0]
    · simp only [check_stop_target, h0, if_false, relevantCandles_idem]
  · intro pd candles pre c rest et tp sl sid tid h1 h2 h3 htp h4 hsl h5 hsid h6
      hcand hpre hts hhit
    subst hcand
    have hlong : pd.current_position.status ≠ "none" := by rw [h1]; decide
    rw [check_stop_target]
    simp only [h1, hlong, if_false, if_true, h2, h3, h4, h5, h6, Option.getD_some,
      if_neg (by decide : ¬ ("long" : String) = "none"), if_pos rfl]
    rw [relevantCandles, List.filter_append, List.filter_cons_of_pos (by simpa using hts)]
    rw [← relevantCandles]
    rw [walkLong_append_no_touch tp sl (some sid) tid _ _ ?_]
    · exact walkLong_target_hit tp sl sid tid c _ htp hsid hhit
    · intro c' hc'
      rw [relevantCandles, List.mem_filter] at hc'
      have hmem := hc'.1
      have hrel : et ≤ c'.timestamp := by simpa using hc'.2
      rcases hpre c' hmem with hlt | hok
      · exact absurd hrel (not_le.mpr hlt)
      · exact hok
  · intro pd candles pre c rest et tp sl sid tid h1 h2 h3 htp h4 hsl h5 hsid h6
      hcand hpre hts hhit
    subst hcand
    have hshort : pd.current_position.status ≠ "none" := by rw [h1]; decide
    rw [check_stop_target]
    simp only [h1, hshort, if_false, if_true, h2, h3, h4, h5, h6, Option.getD_some,
      if_neg (by decide : ¬ ("short" : String) = "none"),
      if_neg (by decide : ¬ ("short" : String) = "long"), if_pos rfl]
    rw [relevantCandles, List.filter_append, List.filter_cons_of_pos (by simpa using hts)]
    rw [← relevantCandles]
    rw [walkShort_append_no_touch tp sl (some sid) tid _ _ ?_]
    · exact walkShort_target_hit tp sl sid tid c _ htp hsid hhit
    · intro c' hc'
      rw [relevantCandles, List.mem_filter] at hc'
      have hmem := hc'.1
      have hrel : et ≤ c'.timestamp := by simpa using hc'.2
      rcases hpre c' hmem with hlt | hok
      · exact absurd hrel (not_le.mpr hlt)
      · exact hok

/-- C1 witness: Scenario C through the long tie-break part of the theorem. -/
theorem c1_witness :
    pdLong.current_position.status = "long" ∧
    (100 : Int) ≤ candleC.timestamp ∧
    (4320 : ℚ) ≤ candleC.high ∧ candleC.low ≤ (4285 : ℚ) ∧
    check_stop_target pdLong [candleC] =
      ⟨true, some "target_hit", some 4320, ["S1"]⟩ :=
  ⟨rfl, by decide, by decide, by decide,
    c1_scanner_tp_before_sl.2.1 pdLong [candleC] [] candleC [] 100 4320 4285 "S1"
      (some "T1") rfl rfl rfl (by decide) rfl (by decide) rfl (by decide) rfl rfl
      (by simp) (by decide) (by decide)⟩

/-- Broker oracle for the Scenario D witness: the stop order `S1` reports
`FILLED` at average price 4283; everything else fails or raises. -/
def brkStopFilled : Broker :=
  { execRaw := fun _ => none, stopRaw := fun _ _ => none, tpRaw := fun _ _ => none,
    getOrder := fun i => if i = "S1" then some ⟨"FILLED", some 4283⟩ else none }

/-- The stored long position of `pdLong` whose entry was a market order
(no recorded entry order id). -/
def pdLongNoEid : PositionsData :=
  { pdLong with current_position :=
      { pdLong.current_position with entry_order_id := none } }

/-- C2: broker shows no position, local shows a long with a recorded stop
order that queries as `FILLED` at 4283 and no resting entry order:
reconciliation appends exactly one trade record with exit price 4283,
profit/loss computed from the stored entry price, and a note mentioning the
desync; it increments `total_trades` and exactly one of
`winning_trades`/`losing_trades`, emits one desync-close event, and clears
the local position to status `none` with every position field null. -/
theorem c2_desync_records_filled_stop (pd : PositionsData) (b : Broker)
    (current_price : ℚ) (now : Int) (e : ℚ) (sid : String)
    (h1 : pd.current_position.status = "long")
    (h2 : pd.current_position.entry_price = some e)
    (h3 : pd.current_position.stop_loss_order_id = some sid)
    (h3x : sid ≠ "")
    (h4 : b.getOrder sid = some ⟨"FILLED", some 4283⟩)
    (h5 : pd.current_position.entry_order_id = none) :
    (reconcile pd BrokerPos.noPosition b current_price now).1.trade_history =
      pd.trade_history ++
        [{ ttype := "long", entry_price := e, exit_price := 4283,
           profit_loss := ((4283 : ℚ) - e) * (CONTRACTS_PER_TRADE * CONTRACT_MULTIPLIER),
           entry_time := pd.current_position.entry_time, exit_time := now,
           note := some "Closed stop_hit (desync detected)" }] ∧
    (reconcile pd BrokerPos.noPosition b current_price now).1.total_trades =
      pd.total_trades + 1 ∧
    (((reconcile pd BrokerPos.noPosition b current_price now).1.winning_trades =
        pd.winning_trades + 1 ∧
      (reconcile pd BrokerPos.noPosition b current_price now).1.losing_trades =
        pd.losing_trades) ∨
     ((reconcile pd BrokerPos.noPosition b current_price now).1.winning_trades =
        pd.winning_trades ∧
      (reconcile pd BrokerPos.noPosition b current_price now).1.losing_trades =
        pd.losing_trades + 1)) ∧
    (reconcile pd BrokerPos.noPosition b current_price now).2.1 =
      [RunMsg.desyncClosed "stop_hit" 4283
        (((4283 : ℚ) - e) * (CONTRACTS_PER_TRADE * CONTRACT_MULTIPLIER))] ∧
    (reconcile pd BrokerPos.noPosition b current_price now).1.current_position =
      { pd.current_position with
          status := "none", entry_price := none, entry_time := none,
          stop_loss := none, take_profit := none, entry_order_id := none,
          stop_loss_order_id := none, take_profit_order_id := none,
          unrealized_pnl := none } := by
  refine ⟨?_, ?_, ?_, ?_, ?_⟩
  · simp [reconcile, h1, h2, h3, h4, h5, truthyS, h3x]
  · simp [reconcile, h1, h2, h3, h4, h5, truthyS, h3x]
  · by_cases hpl :
      0 < ((4283 : ℚ) - e) * (CONTRACTS_PER_TRADE * CONTRACT_MULTIPLIER)
    · left; simp [reconcile, h1, h2, h3, h4, h5, truthyS, h3x, hpl]
    · right; simp [reconcile, h1, h2, h3, h4, h5, truthyS, h3x, hpl]
  · simp [reconcile, h1, h2, h3, h4, h5, truthyS, h3x]
  · simp [reconcile, h1, h2, h3, h4, h5, truthyS, h3x]

/-- C2 witness: Scenario D at `pdLongNoEid` and `brkStopFilled`. -/
theorem c2_witness :
    pdLongNoEid.current_position.status = "long" ∧
    brkStopFilled.getOrder "S1" = some ⟨"FILLED", some 4283⟩ ∧
    pdLongNoEid.current_position.entry_order_id = none ∧
    ((reconcile pdLongNoEid BrokerPos.noPosition brkStopFilled 4290 210).1.trade_history =
      pdLongNoEid.trade_history ++
        [{ ttype := "long", entry_price := 4300, exit_price := 4283,
           profit_loss := ((4283 : ℚ) - 4300) * (CONTRACTS_PER_TRADE * CONTRACT_MULTIPLIER),
           entry_time := pdLongNoEid.current_position.entry_time, exit_time := 210,
           note := some "Closed stop_hit (desync detected)" }] ∧
     (reconcile pdLongNoEid BrokerPos.noPosition brkStopFilled 4290 210).1.total_trades =
       pdLongNoEid.total_trades + 1 ∧
     (((reconcile pdLongNoEid BrokerPos.noPosition brkStopFilled 4290 210).1.winning_trades =
         pdLongNoEid.winning_trades + 1 ∧
       (reconcile pdLongNoEid BrokerPos.noPosition brkStopFilled 4290 210).1.losing_trades =
         pdLongNoEid.losing_trades) ∨
      ((reconcile pdLongNoEid BrokerPos.noPosition brkStopFilled 4290 210).1.winning_trades =
         pdLongNoEid.winning_trades ∧
       (reconcile pdLongNoEid BrokerPos.noPosition brkStopFilled 4290 210).1.losing_trades =
         pdLongNoEid.losing_trades + 1)) ∧
     (reconcile pdLongNoEid BrokerPos.noPosition brkStopFilled 4290 210).2.1 =
       [RunMsg.desyncClosed "stop_hit" 4283
         (((4283 : ℚ) - 4300) * (CONTRACTS_PER_TRADE * CONTRACT_MULTIPLIER))] ∧
     (reconcile pdLongNoEid BrokerPos.noPosition brkStopFilled 4290 210).1.current_position =
       { pdLongNoEid.current_position with
           status := "none", entry_price := none, entry_time := none,
           stop_loss := none, take_profit := none, entry_order_id := none,
           stop_loss_order_id := none, take_profit_order_id := none,
           unrealized_pnl := none }) :=
  ⟨rfl, by decide, rfl,
    c2_desync_records_filled_stop pdLongNoEid brkStopFilled 4290 210 4300 "S1"
      rfl rfl rfl (by decide) (by decide) rfl⟩

/-- Broker oracle for the Scenario E witness: the entry order `E1` is still
resting (`OPEN`); everything else fails or raises. -/
def brkEntryOpen : Broker :=
  { execRaw := fun _ => none, stopRaw := fun _ _ => none, tpRaw := fun _ _ => none,
    getOrder := fun i => if i = "E1" then some ⟨"OPEN", none⟩ else none }

/-- C5: broker shows no position while the local store has an open position
whose recorded entry order still queries as resting (`OPEN`, `PENDING` or
`QUEUED`): reconciliation appends no trade record, leaves all three trade
counters unchanged, emits only the informational entry-never-filled event,
and clears the local position. -/
theorem c5_unfilled_entry_no_pl (pd : PositionsData) (b : Broker)
    (current_price : ℚ) (now : Int) (e : ℚ) (eid st : String)
    (ap : Option ℚ)
    (h1 : pd.current_position.status = "long")
    (h2 : pd.current_position.entry_price = some e)
    (h3 : pd.current_position.entry_order_id = some eid)
    (h3x : eid ≠ "")
    (h4 : b.getOrder eid = some ⟨st, ap⟩)
    (h5 : st = "OPEN" ∨ st = "PENDING" ∨ st = "QUEUED") :
    (reconcile pd BrokerPos.noPosition b current_price now).1.trade_history =
      pd.trade_history ∧
    (reconcile pd BrokerPos.noPosition b current_price now).1.total_trades =
      pd.total_trades ∧
    (reconcile pd BrokerPos.noPosition b current_price now).1.winning_trades =
      pd.winning_trades ∧
    (reconcile pd BrokerPos.noPosition b current_price now).1.losing_trades =
      pd.losing_trades ∧
    (reconcile pd BrokerPos.noPosition b current_price now).2.1 =
      [RunMsg.desyncNoFill] ∧
    (reconcile pd BrokerPos.noPosition b current_price now).1.current_position =
      { pd.current_position with
          status := "none", entry_price := none, entry_time := none,
          stop_loss := none, take_profit := none, entry_order_id := none,
          stop_loss_order_id := none, take_profit_order_id := none,
          unrealized_pnl := none } := by
  rcases h5 with h | h | h <;> subst h <;>
    refine ⟨?_, ?_, ?_, ?_, ?_, ?_⟩ <;>
      simp [reconcile, h1, h2, h3, h4, truthyS, h3x]

/-- C5 witness: Scenario E at `pdLong` and `brkEntryOpen`. -/
theorem c5_witness :
    pdLong.current_position.status = "long" ∧
    brkEntryOpen.getOrder "E1" = some ⟨"OPEN", none⟩ ∧
    ((reconcile pdLong BrokerPos.noPosition brkEntryOpen 4290 210).1.trade_history =
      pdLong.trade_history ∧
     (reconcile pdLong BrokerPos.noPosition brkEntryOpen 4290 210).1.total_trades =
       pdLong.total_trades ∧
     (reconcile pdLong BrokerPos.noPosition brkEntryOpen 4290 210).1.winning_trades =
       pdLong.winning_trades ∧
     (reconcile pdLong BrokerPos.noPosition brkEntryOpen 4290 210).1.losing_trades =
       pdLong.losing_trades ∧
     (reconcile pdLong BrokerPos.noPosition brkEntryOpen 4290 210).2.1 =
       [RunMsg.desyncNoFill] ∧
     (reconcile pdLong BrokerPos.noPosition brkEntryOpen 4290 210).1.current_position =
       { pdLong.current_position with
           status := "none", entry_price := none, entry_time := none,
           stop_loss := none, take_profit := none, entry_order_id := none,
           stop_loss_order_id := none, take_profit_order_id := none,
           unrealized_pnl := none }) :=
  ⟨rfl, by decide,
    c5_unfilled_entry_no_pl pdLong brkEntryOpen 4290 210 4300 "E1" "OPEN" none
      rfl rfl rfl (by decide) (by decide) (Or.inl rfl)⟩

/-- Effect list of a stop-loss placement: exactly the placement attempt. -/
lemma place_stop_effects (b : Broker) (pt : String) (sp : ℚ) :
    (place_stop_loss_order b pt sp).2 = [Effect.placeStopLoss pt sp] := by
  unfold place_stop_loss_order
  cases b.stopRaw pt sp with
  | none => rfl
  | some oid => by_cases h : oid = "" <;> simp [h]

/-- Effect list of a take-profit placement: exactly the placement attempt. -/
lemma place_tp_effects (b : Broker) (pt : String) (tp : ℚ) :
    (place_take_profit_order b pt tp).2 = [Effect.placeTakeProfit pt tp] := by
  unfold place_take_profit_order
  cases b.tpRaw pt tp with
  | none => rfl
  | some oid => by_cases h : oid = "" <;> simp [h]

/-- An entry/exit order submission recorded by `execute_real_futures_trade`
carries the action it was called with. -/
lemma exec_real_execOrder (a a' : String) (p q : ℚ) (b : Broker)
    (h : Effect.execOrder a' q ∈ (execute_real_futures_trade a p b).2) : a' = a := by
  unfold execute_real_futures_trade at h
  split at h
  · cases hx : b.execRaw a <;> rw [hx] at h <;> simp at h <;> exact h.1
  · simp at h

/-- An entry/exit order submission recorded by `execute_trade` carries the
action it was called with. -/
lemma execute_trade_execOrder (a a' : String) (p q : ℚ) (pd : PositionsData)
    (sl tp : Option ℚ) (b : Broker) (now : Int)
    (h : Effect.execOrder a' q ∈ (execute_trade a p pd sl tp b now).2.2) : a' = a := by
  simp only [execute_trade] at h
  split at h
  · simp only [List.mem_append] at h
    rcases h with (h | h) | h
    · exact exec_real_execOrder a a' p q b h
    · split at h
      · rw [place_stop_effects] at h; simp at h
      · simp at h
    · split at h
      · rw [place_tp_effects] at h; simp at h
      · simp at h
  · split at h
    · simp only [List.mem_append] at h
      rcases h with h | h
      · exact exec_real_execOrder a a' p q b h
      · split at h <;> simp at h
    · exact exec_real_execOrder a a' p q b h

/-- The scanner-close phase only ever submits closing orders. -/
lemma scanClose_execOrder (pd : PositionsData) (candles : List Candle)
    (b : Broker) (now : Int) (a' : String) (q : ℚ)
    (h : Effect.execOrder a' q ∈ (scanCloseStep pd candles b now).2.2.1) :
    a' = "close_long" ∨ a' = "close_short" := by
  simp only [scanCloseStep] at h
  split at h
  · split at h
    · simp only [List.mem_append] at h
      rcases h with h | h
      · split at h <;> simp at h
      · exact Or.inl (execute_trade_execOrder _ _ _ _ _ _ _ _ _ h)
    · split at h
      · simp only [List.mem_append] at h
        rcases h with h | h
        · split at h <;> simp at h
        · exact Or.inr (execute_trade_execOrder _ _ _ _ _ _ _ _ _ h)
      · split at h <;> simp at h
  · simp at h

/-- When the volume gate fails, the flat-status transition submits no
entry/exit order at all. -/
lemma signalStepNone_execOrder_volfail (pd1 : PositionsData)
    (td : Option TradeData) (cp : ℚ) (candles : List Candle) (b : Broker)
    (now : Int) (a' : String) (q : ℚ)
    (hvol : (check_volume_conditions candles).1 = false)
    (h : Effect.execOrder a' q ∈ (signalStepNone pd1 td cp candles b now).2.2) :
    False := by
  simp only [signalStepNone] at h
  repeat' split at h
  all_goals simp_all

/-- When the volume gate fails, the long-status transition submits only the
closing order. -/
lemma signalStepLong_execOrder_volfail (pd1 : PositionsData)
    (td : Option TradeData) (cp : ℚ) (candles : List Candle) (b : Broker)
    (now : Int) (a' : String) (q : ℚ)
    (hvol : (check_volume_conditions candles).1 = false)
    (h : Effect.execOrder a' q ∈ (signalStepLong pd1 td cp candles b now).2.2) :
    a' = "close_long" := by
  simp only [signalStepLong] at h
  repeat' split at h
  all_goals first
    | (exact execute_trade_execOrder _ _ _ _ _ _ _ _ _ h)
    | simp_all [place_stop_effects, place_tp_effects]

/-- When the volume gate fails, the short-status transition submits only the
closing order. -/
lemma signalStepShort_execOrder_volfail (pd1 : PositionsData)
    (td : Option TradeData) (cp : ℚ) (candles : List Candle) (b : Broker)
    (now : Int) (a' : String) (q : ℚ)
    (hvol : (check_volume_conditions candles).1 = false)
    (h : Effect.execOrder a' q ∈ (signalStepShort pd1 td cp candles b now).2.2) :
    a' = "close_short" := by
  simp only [signalStepShort] at h
  repeat' split at h
  all_goals first
    | (exact execute_trade_execOrder _ _ _ _ _ _ _ _ _ h)
    | simp_all [place_stop_effects, place_tp_effects]

/-- C10: the volume gate.  Part 1: in any run whose candle data fails the
volume conditions (average volume of the last 10 candles not above 100, or
fewer than 7 of them above 20), `manage_positions` submits no entry order —
neither `open_long` nor `open_short` — whatever the prior state and the
incoming signal, including flips after a close.  Part 2: concretely, from a
flat store with a validated buy signal and failing volume, the run changes
nothing but `last_signal`, produces exactly the volume-too-low rejection for
the long entry, and issues no broker effect.  The gate runs after level
validation. -/
theorem c10_volume_gate :
    (∀ pd td cp candles b now (q : ℚ),
      (check_volume_conditions candles).1 = false →
      Effect.execOrder "open_long" q ∉ (manage_positions pd td cp candles b now).2.2 ∧
      Effect.execOrder "open_short" q ∉ (manage_positions pd td cp candles b now).2.2) ∧
    (∀ pd td cp candles b now,
      pd.current_position.status = "none" → signalOf td = "buy" →
      (validate_trade_levels td cp).1 = true →
      (check_volume_conditions candles).1 = false →
      manage_positions pd td cp candles b now =
        ({ pd with last_signal := "buy" },
          [RunMsg.volumeTooLow "LONG" ((check_volume_conditions candles).2.getD "")],
          [])) := by
  constructor
  · intro pd td cp candles b now q hvol
    have key : ∀ a', Effect.execOrder a' q ∈
        (manage_positions pd td cp candles b now).2.2 →
        a' = "close_long" ∨ a' = "close_short" := by
      intro a' h
      simp only [manage_positions, List.mem_append] at h
      rcases h with h | h
      · exact scanClose_execOrder _ _ _ _ _ _ h
      · simp only [signalStep] at h
        split at h
        · exact (signalStepNone_execOrder_volfail _ _ _ _ _ _ _ _ hvol h).elim
        · split at h
          · exact Or.inl (signalStepLong_execOrder_volfail _ _ _ _ _ _ _ _ hvol h)
          · split at h
            · exact Or.inr (signalStepShort_execOrder_volfail _ _ _ _ _ _ _ _ hvol h)
            · simp at h
    constructor <;> intro h <;> rcases key _ h with h2 | h2 <;> simp at h2
  · intro pd td cp candles b now h1 h2 hv hvol
    have hscan : check_stop_target pd candles = ⟨false, none, none, []⟩ := by
      simp [check_stop_target, h1]
    simp [manage_positions, scanCloseStep, hscan, signalStep, signalStepNone,
      h1, h2, hv, hvol]

/-- C10 witness: flat store, valid buy levels, empty candle data (failing
both volume conditions). -/
theorem c10_witness :
    default_state.current_position.status = "none" ∧
    signalOf (some ⟨"buy", some 4270, some 4330, 80⟩) = "buy" ∧
    (validate_trade_levels (some ⟨"buy", some 4270, some 4330, 80⟩) 4300).1 = true ∧
    (check_volume_conditions ([] : List Candle)).1 = false ∧
    manage_positions default_state (some ⟨"buy", some 4270, some 4330, 80⟩) 4300
        [] brkNone 210 =
      ({ default_state with last_signal := "buy" },
        [RunMsg.volumeTooLow "LONG"
          ((check_volume_conditions ([] : List Candle)).2.getD "")],
        []) :=
  ⟨rfl, rfl,
    by norm_num [validate_trade_levels, validate_levels_core,
      MIN_DISTANCE_PERCENT, MAX_DISTANCE_PERCENT],
    by decide,
    c10_volume_gate.2 default_state (some ⟨"buy", some 4270, some 4330, 80⟩)
      4300 [] brkNone 210 rfl rfl
      (by norm_num [validate_trade_levels, validate_levels_core,
        MIN_DISTANCE_PERCENT, MAX_DISTANCE_PERCENT])
      (by decide)⟩

/-- A broker oracle on which every call succeeds. -/
def brkAll : Broker :=
  { execRaw := fun a => some ("X" ++ a), stopRaw := fun _ _ => some "S2",
    tpRaw := fun _ _ => some "T2", getOrder := fun _ => none }

/-- Ten identical relevant candles: high 4325 (reaching the 4320 target of
`pdLong`) and volume 200 (passing the volume gate). -/
def candlesA : List Candle :=
  [⟨110, 4300, 4325, 4300, 4310, 200⟩, ⟨120, 4300, 4325, 4300, 4310, 200⟩,
   ⟨130, 4300, 4325, 4300, 4310, 200⟩, ⟨140, 4300, 4325, 4300, 4310, 200⟩,
   ⟨150, 4300, 4325, 4300, 4310, 200⟩, ⟨160, 4300, 4325, 4300, 4310, 200⟩,
   ⟨170, 4300, 4325, 4300, 4310, 200⟩, ⟨180, 4300, 4325, 4300, 4310, 200⟩,
   ⟨190, 4300, 4325, 4300, 4310, 200⟩, ⟨200, 4300, 4325, 4300, 4310, 200⟩]

/-- A buy signal whose levels are valid for the live validator at 4300. -/
def tdFlip : TradeData := ⟨"buy", some 4270, some 4330, 80⟩

/-- C4 counterexample: the scanner reports a target hit on `pdLong`, the
long is closed, and a validated buy signal then reopens in the same run —
after `manage_positions` returns, BOTH `stop_loss_order_id` and
`take_profit_order_id` of the stored position are non-null, so the claim
fails as stated for runs that open a new position after the hit. -/
theorem c4_counterexample :
    (check_stop_target pdLong candlesA).should_close = true ∧
    ((manage_positions pdLong (some tdFlip) 4300 candlesA brkAll 210).1.current_position.stop_loss_order_id = some "S2") ∧
    ((manage_positions pdLong (some tdFlip) 4300 candlesA brkAll 210).1.current_position.take_profit_order_id = some "T2") := by
  refine ⟨by decide, ?_, ?_⟩ <;>
    norm_num +decide [manage_positions, scanCloseStep, signalStep, signalStepNone,
      check_stop_target, relevantCandles, walkLong, execute_trade,
      execute_real_futures_trade, place_stop_loss_order, place_take_profit_order,
      validate_trade_levels, validate_levels_core, check_volume_conditions,
      truthyQ, truthyS, pdLong, candlesA, brkAll, tdFlip, MIN_DISTANCE_PERCENT,
      MAX_DISTANCE_PERCENT, CONTRACTS_PER_TRADE, CONTRACT_MULTIPLIER,
      cleared_position, default_position, default_state, signalOf]

/-- A scanner hit can only be reported for a long or short status. -/
lemma scan_fired_status (pd : PositionsData) (candles : List Candle)
    (h : (check_stop_target pd candles).should_close = true) :
    pd.current_position.status = "long" ∨ pd.current_position.status = "short" := by
  by_cases h1 : pd.current_position.status = "none"
  · simp [check_stop_target, h1] at h
  · by_cases h2 : pd.current_position.status = "long"
    · exact Or.inl h2
    · by_cases h3 : pd.current_position.status = "short"
      · exact Or.inr h3
      · simp [check_stop_target, h1, h2, h3] at h

/-- A successful close through `execute_trade` always clears the stored
position. -/
lemma execute_trade_close_clears (a : String) (p : ℚ) (pd : PositionsData)
    (b : Broker) (now : Int) (ha : a = "close_long" ∨ a = "close_short")
    (h : (b.execRaw a).isSome) :
    (execute_trade a p pd none none b now).1.current_position = cleared_position := by
  obtain ⟨oid, hx⟩ := Option.isSome_iff_exists.mp h
  rcases ha with h' | h' <;> subst h' <;>
    simp [execute_trade, execute_real_futures_trade, hx]

/-- An open through `execute_trade` either leaves the store untouched (on
failure) or leaves a non-flat status. -/
lemma execute_trade_open_status (a : String) (p : ℚ) (pd : PositionsData)
    (sl tp : Option ℚ) (b : Broker) (now : Int)
    (ha : a = "open_long" ∨ a = "open_short") :
    (execute_trade a p pd sl tp b now).1.current_position.status ≠ "none" ∨
      (execute_trade a p pd sl tp b now).1 = pd := by
  rcases ha with h' | h' <;> subst h'
  · cases hx : b.execRaw "open_long" with
    | none => right; simp [execute_trade, execute_real_futures_trade, hx]
    | some oid =>
      left
      simp +decide [execute_trade, execute_real_futures_trade, hx]
  · cases hx : b.execRaw "open_short" with
    | none => right; simp [execute_trade, execute_real_futures_trade, hx]
    | some oid =>
      left
      simp +decide [execute_trade, execute_real_futures_trade, hx]

/-- Starting flat with both protective ids null, the flat-status transition
ends with both ids null whenever its final status is flat. -/
lemma signalStepNone_ids (pd1 : PositionsData) (td : Option TradeData)
    (cp : ℚ) (candles : List Candle) (b : Broker) (now : Int)
    (hs : pd1.current_position.stop_loss_order_id = none)
    (ht : pd1.current_position.take_profit_order_id = none)
    (hfin : (signalStepNone pd1 td cp candles b now).1.current_position.status = "none") :
    (signalStepNone pd1 td cp candles b now).1.current_position.stop_loss_order_id = none ∧
    (signalStepNone pd1 td cp candles b now).1.current_position.take_profit_order_id = none := by
  have main : (signalStepNone pd1 td cp candles b now).1.current_position.status ≠ "none" ∨
      (signalStepNone pd1 td cp candles b now).1 = pd1 := by
    simp only [signalStepNone]
    repeat' split
    all_goals first
      | (exact Or.inr rfl)
      | (exact execute_trade_open_status _ _ _ _ _ _ _ (Or.inl rfl))
      | (exact execute_trade_open_status _ _ _ _ _ _ _ (Or.inr rfl))
  rcases main with hne | heq
  · exact absurd hfin hne
  · rw [heq]; exact ⟨hs, ht⟩

/-- C4 amended: after a scanner-reported hit, provided the close order
succeeds, the run ends with both protective order ids null whenever the
stored status is still `none`; both ids can be non-null only because a new
position was opened later in the same run (flip or re-entry), and they then
protect the new position.  (If the close order itself fails, the stale ids
also survive.) -/
theorem c4_amended_hit_then_flat_ids (pd : PositionsData) (td : Option TradeData)
    (cp : ℚ) (candles : List Candle) (b : Broker) (now : Int)
    (hscan : (check_stop_target pd candles).should_close = true)
    (hcl : (b.execRaw "close_long").isSome)
    (hcs : (b.execRaw "close_short").isSome)
    (hfin : (manage_positions pd td cp candles b now).1.current_position.status = "none") :
    (manage_positions pd td cp candles b now).1.current_position.stop_loss_order_id = none ∧
    (manage_positions pd td cp candles b now).1.current_position.take_profit_order_id = none := by
  rcases scan_fired_status pd candles hscan with h0 | h0
  · have hclear := execute_trade_close_clears "close_long"
      ((check_stop_target pd candles).exit_price.getD 0) pd b now (Or.inl rfl) hcl
    simp +decide only [manage_positions, scanCloseStep, hscan, h0, if_true,
      if_false, signalStep] at hfin ⊢
    exact signalStepNone_ids _ td cp candles b now
      (by rw [hclear]; rfl) (by rw [hclear]; rfl) hfin
  · have hclear := execute_trade_close_clears "close_short"
      ((check_stop_target pd candles).exit_price.getD 0) pd b now (Or.inr rfl) hcs
    simp +decide only [manage_positions, scanCloseStep, hscan, h0, if_true,
      if_false, signalStep] at hfin ⊢
    exact signalStepNone_ids _ td cp candles b now
      (by rw [hclear]; rfl) (by rw [hclear]; rfl) hfin


/-- C4 witness: hit plus hold signal — the run ends flat with both ids null. -/
theorem c4_witness :
    (check_stop_target pdLong candlesA).should_close = true ∧
    (brkAll.execRaw "close_long").isSome = true ∧
    (brkAll.execRaw "close_short").isSome = true ∧
    ((manage_positions pdLong none 4300 candlesA brkAll 210).1.current_position.status = "none") ∧
    ((manage_positions pdLong none 4300 candlesA brkAll 210).1.current_position.stop_loss_order_id = none ∧
     (manage_positions pdLong none 4300 candlesA brkAll 210).1.current_position.take_profit_order_id = none) := by
  have hfin : (manage_positions pdLong none 4300 candlesA brkAll 210).1.current_position.status = "none" := by
    norm_num +decide [manage_positions, scanCloseStep, signalStep, signalStepNone,
      check_stop_target, relevantCandles, walkLong, execute_trade,
      execute_real_futures_trade, truthyQ, truthyS, pdLong, candlesA, brkAll,
      CONTRACTS_PER_TRADE, CONTRACT_MULTIPLIER, cleared_position,
      default_position, default_state, signalOf]
  exact ⟨by decide, rfl, rfl, hfin,
    c4_amended_hit_then_flat_ids pdLong none 4300 candlesA brkAll 210
      (by decide) rfl rfl hfin⟩

/-- The position-level fields that the C3 invariant talks about. -/
def positionFieldsNull (p : Position) : Prop :=
  p.entry_price = none ∧ p.entry_time = none ∧ p.stop_loss = none ∧
  p.take_profit = none ∧ p.entry_order_id = none ∧
  p.stop_loss_order_id = none ∧ p.take_profit_order_id = none

/-- Strengthened store invariant: a flat status has all fields null, and a
non-flat status always carries an entry price. -/
def storeInv (p : Position) : Prop :=
  (p.status = "none" → positionFieldsNull p) ∧
  (p.status ≠ "none" → p.entry_price ≠ none)

lemma truthyQ_ne_none (o : Option ℚ) (h : truthyQ o = true) : o ≠ none := by
  cases o <;> simp [truthyQ] at *

lemma storeInv_of_status_and_entry (p : Position) (hs : p.status ≠ "none")
    (he : p.entry_price ≠ none) : storeInv p :=
  ⟨fun h => absurd h hs, fun _ => he⟩

lemma storeInv_cleared : storeInv cleared_position := by
  exact ⟨fun _ => by simp [cleared_position, default_position, positionFieldsNull],
    fun hne => absurd rfl hne⟩

lemma storeInv_execute_trade (a : String) (p : ℚ) (pd : PositionsData)
    (sl tp : Option ℚ) (b : Broker) (now : Int)
    (h : storeInv pd.current_position) :
    storeInv (execute_trade a p pd sl tp b now).1.current_position := by
  simp only [execute_trade]
  split
  · rename_i hcond
    rcases hcond.2 with ha | ha <;>
      refine storeInv_of_status_and_entry _ ?_ ?_ <;> simp +decide [ha]
  · split
    · simpa using storeInv_cleared
    · exact h

lemma storeInv_signalStepNone (pd1 : PositionsData) (td : Option TradeData)
    (cp : ℚ) (candles : List Candle) (b : Broker) (now : Int)
    (h : storeInv pd1.current_position) :
    storeInv (signalStepNone pd1 td cp candles b now).1.current_position := by
  simp only [signalStepNone]
  repeat' split
  all_goals first
    | exact h
    | exact storeInv_execute_trade _ _ _ _ _ _ _ h

lemma storeInv_signalStepLong (pd1 : PositionsData) (td : Option TradeData)
    (cp : ℚ) (candles : List Candle) (b : Broker) (now : Int)
    (hst : pd1.current_position.status = "long")
    (h : storeInv pd1.current_position) :
    storeInv (signalStepLong pd1 td cp candles b now).1.current_position := by
  have he : pd1.current_position.entry_price ≠ none := h.2 (by simp [hst])
  simp only [signalStepLong]
  repeat' split
  all_goals first
    | exact h
    | exact storeInv_execute_trade _ _ _ _ _ _ _ h
    | exact storeInv_execute_trade _ _ _ _ _ _ _
        (storeInv_execute_trade _ _ _ _ _ _ _ h)
    | (refine storeInv_of_status_and_entry _ ?_ ?_ <;> simp [hst, he] <;> done)

lemma storeInv_signalStepShort (pd1 : PositionsData) (td : Option TradeData)
    (cp : ℚ) (candles : List Candle) (b : Broker) (now : Int)
    (hst : pd1.current_position.status = "short")
    (h : storeInv pd1.current_position) :
    storeInv (signalStepShort pd1 td cp candles b now).1.current_position := by
  have he : pd1.current_position.entry_price ≠ none := h.2 (by simp [hst])
  simp only [signalStepShort]
  repeat' split
  all_goals first
    | exact h
    | exact storeInv_execute_trade _ _ _ _ _ _ _ h
    | exact storeInv_execute_trade _ _ _ _ _ _ _
        (storeInv_execute_trade _ _ _ _ _ _ _ h)
    | (refine storeInv_of_status_and_entry _ ?_ ?_ <;> simp [hst, he] <;> done)

lemma scanClose_props (pd : PositionsData) (candles : List Candle) (b : Broker)
    (now : Int) (h : storeInv pd.current_position) :
    storeInv (scanCloseStep pd candles b now).1.current_position ∧
    ((scanCloseStep pd candles b now).2.2.2 = "long" →
      (scanCloseStep pd candles b now).1.current_position.status = "long") ∧
    ((scanCloseStep pd candles b now).2.2.2 = "short" →
      (scanCloseStep pd candles b now).1.current_position.status = "short") := by
  simp only [scanCloseStep]
  repeat' split
  all_goals refine ⟨?_, ?_, ?_⟩
  all_goals first
    | exact h
    | exact storeInv_execute_trade _ _ _ _ _ _ _ h
    | (intro hx; simp at hx; done)
    | (intro hx; exact hx)

lemma storeInv_manage (pd : PositionsData) (td : Option TradeData) (cp : ℚ)
    (candles : List Candle) (b : Broker) (now : Int)
    (h : storeInv pd.current_position) :
    storeInv (manage_positions pd td cp candles b now).1.current_position := by
  obtain ⟨hI, hL, hS⟩ := scanClose_props pd candles b now h
  simp only [manage_positions, signalStep]
  by_cases h1 : (scanCloseStep pd candles b now).2.2.2 = "none"
  · simp only [h1, if_true]
    simpa using storeInv_signalStepNone _ td cp candles b now hI
  · by_cases h2 : (scanCloseStep pd candles b now).2.2.2 = "long"
    · simp only [h1, h2, if_true, if_false]
      simpa using storeInv_signalStepLong _ td cp candles b now (hL h2) hI
    · by_cases h3 : (scanCloseStep pd candles b now).2.2.2 = "short"
      · simp only [h1, h2, h3, if_true, if_false]
        simpa using storeInv_signalStepShort _ td cp candles b now (hS h3) hI
      · simp only [h1, h2, h3, if_false]
        simpa using hI

lemma storeInv_reconcile (pd : PositionsData) (bp : BrokerPos) (b : Broker)
    (cp : ℚ) (now : Int) (h : storeInv pd.current_position) :
    storeInv (reconcile pd bp b cp now).1.current_position := by
  cases bp with
  | apiError e => exact h
  | livePos side size entry_vwap pnl =>
    by_cases hq : entry_vwap = 0 ∧ truthyQ pd.current_position.entry_price
    · refine storeInv_of_status_and_entry _ ?_ ?_ <;>
        cases side <;>
          simp [reconcile, Side.toStatus, hq, truthyQ_ne_none _ hq.2]
    · refine storeInv_of_status_and_entry _ ?_ ?_ <;>
        cases side <;> simp [reconcile, Side.toStatus, hq]
  | noPosition =>
    refine ⟨fun _ => ?_, fun hne => ?_⟩
    · simp [reconcile, positionFieldsNull]
    · exact absurd (by simp [reconcile]) hne

lemma storeInv_runCycle (pd : PositionsData) (bp : BrokerPos)
    (td : Option TradeData) (cp : ℚ) (candles : List Candle) (b : Broker)
    (now : Int) (h : storeInv pd.current_position) :
    storeInv (runCycle pd bp td cp candles b now).1.current_position :=
  storeInv_manage _ td cp candles b now (storeInv_reconcile pd bp b cp now h)

/-- C3: on every reachable store — the first-run default and the result of
any number of full cycles (reconciliation followed by the state machine with
its `execute_trade` calls) — the stored position has status `none` exactly
when `entry_price`, `entry_time`, `stop_loss`, `take_profit`,
`entry_order_id`, `stop_loss_order_id` and `take_profit_order_id` are all
null. -/
theorem c3_status_none_iff_null (pd : PositionsData) (h : Reachable pd) :
    pd.current_position.status = "none" ↔ positionFieldsNull pd.current_position := by
  have inv : storeInv pd.current_position := by
    induction h with
    | init =>
      exact ⟨fun _ => by simp [default_state, default_position, positionFieldsNull],
        fun hne => absurd rfl hne⟩
    | step pd bp td cp candles b now hr ih =>
      exact storeInv_runCycle pd bp td cp candles b now ih
  constructor
  · exact inv.1
  · intro hnull
    by_contra hne
    exact (inv.2 hne) hnull.1

/-- C3 witness: the first-run default store is reachable and satisfies the
invariant. -/
theorem c3_witness :
    Reachable default_state ∧
    (default_state.current_position.status = "none" ↔
      positionFieldsNull default_state.current_position) :=
  ⟨Reachable.init, c3_status_none_iff_null default_state Reachable.init⟩


end ElBota
